import Mathlib

/-!
Verification of the CHC-safety checker `main.py` (task_colab-94).

The module under scrutiny exposes
  `verify(source, dialect, timeout=5, learn=False) -> dict`
and internally uses three compiled regular expressions to approximate
Datalog CHC safety, plus a z3 `Solver` for the SMT-LIB 2 dialect.

The embedding below translates each Python function into a Lean
function.  External collaborators (the file system reached through
`os.path.isfile` / `open().read()` and the z3 solver reached through
`from_string` / `check` / `model().sexpr()`) are passed in as explicit
parameters, so `verify` becomes a pure function of its arguments and of
those collaborators' behaviour.
-/

namespace Chc

/-- Character class of the regexes' capture groups:
`[A-Za-z0-9_!?\-+*/<>=]` (from `_DCL_RE`, `_RULE_RE`, `_QUERY_RE`). -/
def isIdentChar (c : Char) : Bool :=
  c.isAlpha || c.isDigit ||
    c = '_' || c = '!' || c = '?' || c = '-' || c = '+' ||
    c = '*' || c = '/' || c = '<' || c = '>' || c = '='

/-- The `\s` class of Python's `re` on ASCII text (space, tab, newline,
carriage return, vertical tab, form feed).  The same class is used for
`str.strip()` on ASCII text. -/
def isSpaceChar (c : Char) : Bool :=
  c = ' ' || c = '\t' || c = '\n' || c = '\r' ||
    c = Char.ofNat 11 || c = Char.ofNat 12

/-- The capture group `([A-Za-z0-9_!?\-+*/<>=]+)` of the three patterns:
greedily take identifier characters; at least one is required, else the
whole match attempt fails.  Returns the capture and the rest of the
text after the match. -/
def captureIdent (r4 : List Char) : Option (List Char × List Char) :=
  if (r4.takeWhile isIdentChar).isEmpty then none
  else some (r4.takeWhile isIdentChar,
             r4.drop (r4.takeWhile isIdentChar).length)

/-- The part `\s+` (followed by `\(?\s*` when `optParen` is true, as in
`_RULE_RE`) and then the capture group, applied to the text right after
the keyword. -/
def afterKw (optParen : Bool) (r2 : List Char) :
    Option (List Char × List Char) :=
  match r2 with
  | c :: _ =>
    if isSpaceChar c then
      if optParen then
        match r2.dropWhile isSpaceChar with
        | c2 :: r =>
          if c2 = '(' then captureIdent (r.dropWhile isSpaceChar)
          else captureIdent (r2.dropWhile isSpaceChar)
        | [] => captureIdent (r2.dropWhile isSpaceChar)
      else captureIdent (r2.dropWhile isSpaceChar)
    else none
  | [] => none

/-- One match attempt, at the start of `l`, of a pattern of the shape
`\(\s*KW\s+...`: a literal `(`, optional whitespace, the keyword, then
`afterKw`.  All the branching alternatives of these patterns consume
characters from pairwise disjoint classes, so greedy matching is
deterministic and this computes exactly what Python's backtracking
engine does. -/
def matchAt (kw : List Char) (optParen : Bool) (l : List Char) :
    Option (List Char × List Char) :=
  match l with
  | c :: r0 =>
    if c = '(' then
      if kw.isPrefixOf (r0.dropWhile isSpaceChar) then
        afterKw optParen ((r0.dropWhile isSpaceChar).drop kw.length)
      else none
    else none
  | [] => none

/-- Left-to-right, non-overlapping scan, as `re.findall` performs it:
try a match at the current position; on success record the capture and
resume after the match, on failure advance one character.  `fuel` bounds
the number of steps; `scanAll` supplies enough fuel for the whole text. -/
def scanAux (kw : List Char) (optParen : Bool) :
    Nat → List Char → List (List Char)
  | 0, _ => []
  | _ + 1, [] => []
  | fuel + 1, c :: rest =>
    match matchAt kw optParen (c :: rest) with
    | some (cap, after) => cap :: scanAux kw optParen fuel after
    | none => scanAux kw optParen fuel rest

/-- `PATTERN.findall(text)` for the three patterns of the module. -/
def scanAll (kw : List Char) (optParen : Bool) (text : List Char) :
    List (List Char) :=
  scanAux kw optParen text.length text

/-- `_DCL_RE.findall`, with
`_DCL_RE = re.compile(r"\(\s*declare-rel\s+([A-Za-z0-9_!?\-+*/<>=]+)")`. -/
def dclFindall (text : List Char) : List (List Char) :=
  scanAll "declare-rel".toList false text

/-- `_RULE_RE.findall`, with
`_RULE_RE = re.compile(r"\(\s*rule\s+\(?\s*([A-Za-z0-9_!?\-+*/<>=]+)")`. -/
def ruleFindall (text : List Char) : List (List Char) :=
  scanAll "rule".toList true text

/-- `_QUERY_RE.findall`, with
`_QUERY_RE = re.compile(r"\(\s*query\s+([A-Za-z0-9_!?\-+*/<>=]+)")`. -/
def queryFindall (text : List Char) : List (List Char) :=
  scanAll "query".toList false text

/-- The result dictionary `{"status": ..., "model": ..., "learned": ...}`. -/
structure VResult where
  status : String
  model : Option String
  learned : List String
deriving DecidableEq

/-- The f-string `f"(define-fun {pred} () Bool true)"`. -/
def factFor (pred : List Char) : String :=
  "(define-fun " ++ (⟨pred⟩ : String) ++ " () Bool true)"

/-- `_datalog_status(text)`: the regex heuristic.  In the Python source
`decls` and `rules` are wrapped in `set(...)`; they are only used for
emptiness and membership tests, for which the underlying lists are
equivalent, so the embedding keeps the lists. -/
def _datalog_status (text : List Char) : Option VResult :=
  if dclFindall text = [] ∨ queryFindall text = [] then none
  else if (queryFindall text).headD [] ∉ dclFindall text then none
  else if (queryFindall text).headD [] ∈ ruleFindall text then
    some ⟨"unsafe", some (factFor ((queryFindall text).headD [])),
          [factFor ((queryFindall text).headD [])]⟩
  else
    some ⟨"safe", none, []⟩

/-- Python exception classes relevant to `verify`: the `ValueError`
raised on argument misuse, the `OSError` that `open`/`read` can raise,
the `z3.Z3Exception` that `Solver.from_string` can raise, and a stand-in
for every other exception class. -/
inductive PyExc where
  | valueError
  | osError
  | z3Error
  | otherError
deriving DecidableEq

/-- The file system as `_read_text` sees it: `os.path.isfile` plus
`open(src, "r", encoding="utf-8").read()`, which either returns the
contents or raises. -/
structure FS where
  isfile : String → Bool
  readFile : String → Except PyExc String

/-- `_read_text(src)`: return file contents if `src` is an existing
path, else return `src`.  Exceptions from reading propagate. -/
def _read_text (fs : FS) (src : String) : Except PyExc String :=
  if fs.isfile src then fs.readFile src else .ok src

/-- The ternary outcome of `solver.check()`. -/
inductive CheckRes where
  | unsat
  | sat
  | unknown
deriving DecidableEq

/-- The observable behaviour of one z3 `Solver` session:
whether `from_string` raises, what `check()` returns, and the text
`model().sexpr()` produces. -/
structure SolverRun where
  parseExc : Option PyExc
  checkRes : CheckRes
  modelSexpr : String

/-- Everything external `verify` touches: the file system and the
solver; the solver's behaviour may depend on the parsed text and on the
millisecond timeout set via `solver.set("timeout", timeout * 1000)`. -/
structure Env where
  fs : FS
  solver : String → Int → SolverRun

/-- `text.strip()` on ASCII text. -/
def pyStrip (s : String) : String :=
  ⟨((s.toList.dropWhile isSpaceChar).reverse.dropWhile isSpaceChar).reverse⟩

/-- The record `{"status": "unknown", "model": None, "learned": []}`. -/
def unknownResult : VResult := ⟨"unknown", none, []⟩

/-- `verify(source, dialect, timeout=5, learn=False)`.

Faithful to the reconstructed source:
```
def verify(source, dialect, timeout=5, learn=False):
    if timeout <= 0:
        raise ValueError("timeout must be positive")
    if dialect not in {"datalog", "smtlib2"}:
        raise ValueError("dialect must be 'smtlib2' or 'datalog'")
    try:
        text = _read_text(source)
    except OSError:
        return {"status": "unknown", "model": None, "learned": []}
    if not text.strip():
        return {"status": "unknown", "model": None, "learned": []}
    if dialect == "datalog":
        datalog_res = _datalog_status(text)
        if datalog_res is None:
            return {"status": "unknown", "model": None, "learned": []}
        if not learn:
            datalog_res["learned"] = []
        return datalog_res
    solver = z3.Solver()
    solver.set("timeout", timeout * 1000)
    try:
        solver.from_string(text)
    except z3.Z3Exception:
        return {"status": "unknown", "model": None, "learned": []}
    chk = solver.check()
    if chk == z3.unsat:
        return {"status": "safe", "model": None, "learned": []}
    if chk == z3.sat:
        mdl_sexpr = solver.model().sexpr()
        learned = [mdl_sexpr] if learn else []
        return {"status": "unsafe", "model": mdl_sexpr, "learned": learned}
    return {"status": "unknown", "model": None, "learned": []}
```
A raised exception is the `.error` case; a returned dictionary is the
`.ok` case. -/
def verify (env : Env) (source dialect : String) (timeout : Int)
    (learn : Bool) : Except PyExc VResult :=
  if timeout ≤ 0 then .error .valueError
  else if ¬ (dialect = "datalog" ∨ dialect = "smtlib2") then
    .error .valueError
  else
    match _read_text env.fs source with
    | .error e => if e = .osError then .ok unknownResult else .error e
    | .ok text =>
      if pyStrip text = "" then .ok unknownResult
      else if dialect = "datalog" then
        match _datalog_status text.toList with
        | none => .ok unknownResult
        | some r => .ok (if learn then r else { r with learned := [] })
      else
        match (env.solver text (timeout * 1000)).parseExc with
        | some e => if e = .z3Error then .ok unknownResult else .error e
        | none =>
          match (env.solver text (timeout * 1000)).checkRes with
          | .unsat => .ok ⟨"safe", none, []⟩
          | .sat =>
            .ok ⟨"unsafe", some (env.solver text (timeout * 1000)).modelSexpr,
                 if learn
                 then [(env.solver text (timeout * 1000)).modelSexpr]
                 else []⟩
          | .unknown => .ok unknownResult

/-- Two successive calls of `verify` with identical arguments; the
module holds no mutable state between calls (its only module-level
values are the three compiled regex constants), so the second call runs
in the same environment as the first. -/
def verifyTwice (env : Env) (source dialect : String) (timeout : Int)
    (learn : Bool) : Except PyExc VResult × Except PyExc VResult :=
  (verify env source dialect timeout learn,
   verify env source dialect timeout learn)

/-! ### Concrete collaborators used to instantiate theorems -/

instance {ε α : Type} [DecidableEq ε] [DecidableEq α] :
    DecidableEq (Except ε α)
  | .ok a, .ok b => decidable_of_iff (a = b) (by simp)
  | .error a, .error b => decidable_of_iff (a = b) (by simp)
  | .ok _, .error _ => .isFalse (by simp)
  | .error _, .ok _ => .isFalse (by simp)

/-- A solver session whose behaviour is irrelevant to the call. -/
def dummyRun : SolverRun := ⟨none, .unknown, ""⟩

/-- A file system with no files; inline sources are taken literally. -/
def fsNone : FS := ⟨fun _ => false, fun _ => .error .osError⟩

/-- An environment with no files and an inert solver. -/
def envPlain : Env := ⟨fsNone, fun _ _ => dummyRun⟩

/-- An environment whose every file read raises `OSError`. -/
def envOsErr : Env := ⟨⟨fun _ => true, fun _ => .error .osError⟩, fun _ _ => dummyRun⟩

/-- An environment whose solver always raises `Z3Exception` at parse time. -/
def envZ3Err : Env := ⟨fsNone, fun _ _ => ⟨some .z3Error, .unknown, ""⟩⟩

/-- An environment whose solver reports `sat` with a fixed model text. -/
def envSat (mdl : String) : Env := ⟨fsNone, fun _ _ => ⟨none, .sat, mdl⟩⟩

/-- Number of positions of `s` at which `pat` occurs as a substring. -/
def countOccur (pat s : List Char) : Nat :=
  (s.tails.filter (fun t => pat.isPrefixOf t)).length

/-! ### Helper lemmas -/

theorem pyStrip_eq_empty_iff (s : String) :
    pyStrip s = "" ↔ ∀ c ∈ s.toList, isSpaceChar c = true := by
  constructor
  · intro h c hc
    have hdata : ((s.toList.dropWhile isSpaceChar).reverse.dropWhile
        isSpaceChar).reverse = [] := congrArg String.toList h
    have h1 : (s.toList.dropWhile isSpaceChar).reverse.dropWhile
        isSpaceChar = [] := by
      simpa using congrArg List.reverse hdata
    have h2 : ∀ x ∈ s.toList.dropWhile isSpaceChar, isSpaceChar x = true := by
      intro x hx
      exact List.dropWhile_eq_nil_iff.mp h1 x (List.mem_reverse.mpr hx)
    have hsplit := List.takeWhile_append_dropWhile (p := isSpaceChar)
      (l := s.toList)
    rcases List.mem_append.mp (by rw [hsplit]; exact hc) with h' | h'
    · exact List.mem_takeWhile_imp h'
    · exact h2 c h'
  · intro h
    have h1 : s.toList.dropWhile isSpaceChar = [] :=
      List.dropWhile_eq_nil_iff.mpr h
    unfold pyStrip
    rw [h1]
    rfl

theorem matchAt_none_of_space {kw : List Char} {p : Bool} {c : Char}
    {rest : List Char} (hc : isSpaceChar c = true) :
    matchAt kw p (c :: rest) = none := by
  have hne : c ≠ '(' := by
    intro e; subst e; simp [isSpaceChar] at hc
  simp only [matchAt]
  rw [if_neg hne]

theorem scanAux_eq_nil_of_space (kw : List Char) (p : Bool) :
    ∀ fuel cs, (∀ c ∈ cs, isSpaceChar c = true) →
      scanAux kw p fuel cs = [] := by
  intro fuel
  induction fuel with
  | zero => intro cs _; rfl
  | succ f ih =>
    intro cs h
    cases cs with
    | nil => rfl
    | cons c rest =>
      have hc : isSpaceChar c = true := h c (List.mem_cons_self c rest)
      unfold scanAux
      rw [matchAt_none_of_space hc]
      exact ih rest fun x hx => h x (List.mem_cons_of_mem c hx)

theorem captureIdent_cap_all_ident {r4 cap after : List Char}
    (h : captureIdent r4 = some (cap, after)) :
    cap.all isIdentChar = true := by
  unfold captureIdent at h
  split at h
  · exact absurd h (by simp)
  · injection h with h'
    injection h' with h1 _
    subst h1
    exact List.all_eq_true.mpr fun x hx => List.mem_takeWhile_imp hx

theorem afterKw_cap_all_ident {p : Bool} {r2 cap after : List Char}
    (h : afterKw p r2 = some (cap, after)) :
    cap.all isIdentChar = true := by
  unfold afterKw at h
  split at h
  · split at h
    · split at h
      · split at h
        · split at h
          · exact captureIdent_cap_all_ident h
          · exact captureIdent_cap_all_ident h
        · exact captureIdent_cap_all_ident h
      · exact captureIdent_cap_all_ident h
    · exact absurd h (by simp)
  · exact absurd h (by simp)

theorem matchAt_cap_all_ident {kw : List Char} {p : Bool} {l cap after :
    List Char} (h : matchAt kw p l = some (cap, after)) :
    cap.all isIdentChar = true := by
  unfold matchAt at h
  split at h
  · split at h
    · split at h
      · exact afterKw_cap_all_ident h
      · exact absurd h (by simp)
    · exact absurd h (by simp)
  · exact absurd h (by simp)

theorem all_ident_of_mem_scanAux (kw : List Char) (p : Bool) :
    ∀ fuel cs n, n ∈ scanAux kw p fuel cs → n.all isIdentChar = true := by
  intro fuel
  induction fuel with
  | zero => intro cs n hn; simp [scanAux] at hn
  | succ f ih =>
    intro cs n hn
    cases cs with
    | nil => simp [scanAux] at hn
    | cons c rest =>
      unfold scanAux at hn
      cases hmc : matchAt kw p (c :: rest) with
      | none =>
        rw [hmc] at hn
        exact ih rest n hn
      | some pr =>
        rw [hmc] at hn
        rcases pr with ⟨cap, after⟩
        rcases List.mem_cons.mp hn with h | h
        · subst h
          exact matchAt_cap_all_ident hmc
        · exact ih after n h

/-- A structurally malformed Datalog input: no declaration matches, no
query matches, or the first queried predicate is not declared. -/
def datalogMalformed (cs : List Char) : Prop :=
  dclFindall cs = [] ∨ queryFindall cs = [] ∨
    ∃ q qs, queryFindall cs = q :: qs ∧ q ∉ dclFindall cs

theorem _datalog_status_none_of_malformed {cs : List Char}
    (h : datalogMalformed cs) : _datalog_status cs = none := by
  unfold _datalog_status
  rcases h with h | h | ⟨q, qs, hq, hnd⟩
  · rw [if_pos (Or.inl h)]
  · rw [if_pos (Or.inr h)]
  · by_cases hd : dclFindall cs = []
    · rw [if_pos (Or.inl hd)]
    · rw [if_neg (by simp [hd, hq])]
      rw [hq]
      simp [hnd]

theorem _datalog_status_eq_of {cs : List Char} {q : List Char}
    {qs : List (List Char)} (hq : queryFindall cs = q :: qs)
    (hdecl : q ∈ dclFindall cs) :
    _datalog_status cs =
      some (if q ∈ ruleFindall cs
            then ⟨"unsafe", some (factFor q), [factFor q]⟩
            else ⟨"safe", none, []⟩) := by
  unfold _datalog_status
  have hd : dclFindall cs ≠ [] := List.ne_nil_of_mem hdecl
  rw [if_neg (by simp [hd, hq]), hq]
  simp only [List.headD_cons]
  rw [if_neg (by simp [hdecl])]
  by_cases hr : q ∈ ruleFindall cs
  · rw [if_pos hr, if_pos hr]
  · rw [if_neg hr, if_neg hr]

/-- If any of the three patterns produces a match, the text is not
whitespace-only, hence `pyStrip` of it is non-empty. -/
theorem pyStrip_ne_empty_of_query {text : String} {q : List Char}
    {qs : List (List Char)} (hq : queryFindall text.toList = q :: qs) :
    pyStrip text ≠ "" := by
  intro h
  have hsp := (pyStrip_eq_empty_iff text).mp h
  have : queryFindall text.toList = [] :=
    scanAux_eq_nil_of_space _ _ _ _ hsp
  rw [hq] at this
  exact List.cons_ne_nil _ _ this

/-- Full evaluation of a well-formed Datalog call of `verify`:
the outcome is decided by whether the first queried predicate is among
the heads extracted by `_RULE_RE`. -/
theorem verify_datalog_eval (env : Env) (source : String) (timeout : Int)
    (learn : Bool) (text : String) (q : List Char) (qs : List (List Char))
    (ht : 0 < timeout)
    (hread : _read_text env.fs source = .ok text)
    (hq : queryFindall text.toList = q :: qs)
    (hdecl : q ∈ dclFindall text.toList) :
    verify env source "datalog" timeout learn =
      .ok (if q ∈ ruleFindall text.toList
           then ⟨"unsafe", some (factFor q),
                 if learn then [factFor q] else []⟩
           else ⟨"safe", none, []⟩) := by
  have ht' : ¬ (timeout ≤ 0) := by omega
  have hnb := pyStrip_ne_empty_of_query hq
  simp only [verify, ht', if_false, hread]
  rw [if_neg (by simp), if_neg hnb]
  simp only [if_true]
  rw [_datalog_status_eq_of hq hdecl]
  by_cases hr : q ∈ ruleFindall text.toList
  · rw [if_pos hr, if_pos hr]
    cases learn <;> rfl
  · rw [if_neg hr, if_neg hr]
    cases learn <;> rfl

/-! ### Claims -/

/-- C1: for every smtlib2-dialect call that passes argument validation
and has non-empty resolved source, `verify` maps the solver's ternary
outcome as follows: unsatisfiable yields status "safe" with model
`None`; satisfiable yields status "unsafe" with model equal to the
textual rendering of the solver's produced answer
(`solver.model().sexpr()`); indeterminate yields status "unknown" with
model `None`. -/
theorem smtlib2_outcome_mapping (env : Env) (source : String)
    (timeout : Int) (learn : Bool) (text : String)
    (ht : 0 < timeout)
    (hread : _read_text env.fs source = .ok text)
    (hnb : pyStrip text ≠ "")
    (hparse : (env.solver text (timeout * 1000)).parseExc = none) :
    ((env.solver text (timeout * 1000)).checkRes = .unsat →
      verify env source "smtlib2" timeout learn =
        .ok ⟨"safe", none, []⟩) ∧
    ((env.solver text (timeout * 1000)).checkRes = .sat →
      verify env source "smtlib2" timeout learn =
        .ok ⟨"unsafe", some (env.solver text (timeout * 1000)).modelSexpr,
             if learn then [(env.solver text (timeout * 1000)).modelSexpr]
             else []⟩) ∧
    ((env.solver text (timeout * 1000)).checkRes = .unknown →
      verify env source "smtlib2" timeout learn = .ok unknownResult) := by
  have ht' : ¬ (timeout ≤ 0) := by omega
  refine ⟨fun hchk => ?_, fun hchk => ?_, fun hchk => ?_⟩ <;>
    simp [verify, ht', hread, hnb, hparse, hchk]

/-- Witness for C1: a solver session reporting `sat` with answer text
`"((define-fun x 1))"` produces status "unsafe" with that text as the
model. -/
theorem smtlib2_outcome_mapping_witness :
    verify (envSat "((define-fun x 1))") "(assert true)" "smtlib2" 5 true =
      .ok ⟨"unsafe", some "((define-fun x 1))", ["((define-fun x 1))"]⟩ :=
  (smtlib2_outcome_mapping (envSat "((define-fun x 1))") "(assert true)"
    5 true "(assert true)" (by decide) rfl (by decide) rfl).2.1 rfl

/-- C2 counterexample: on `(declare-rel P ()) (rule (P)) (query P)` the
returned model is the single fact assertion
`"(define-fun P () Bool true)"`, in which the fact pattern
`(define-fun` occurs exactly once, not twice as the claim states (the
second synthesized copy of the fact goes into `learned`, not into
`model`). -/
theorem datalog_unsafe_model_counterexample :
    verify envPlain "(declare-rel P ()) (rule (P)) (query P)" "datalog"
        5 true =
      .ok ⟨"unsafe", some "(define-fun P () Bool true)",
           ["(define-fun P () Bool true)"]⟩ ∧
    countOccur "(define-fun".toList
      "(define-fun P () Bool true)".toList = 1 := by
  constructor
  · decide
  · decide

/-- C2 as amended: for a datalog-dialect call with at least one
declaration and at least one query whose first queried predicate is
declared, if that predicate has an unconditional rule then `verify`
returns status "unsafe" with a non-empty model consisting of one
textual fact assertion containing the literal predicate name (a second
copy of that fact is placed in `learned` before learn-gating);
otherwise it returns status "safe" with model `None` and learned
`[]`. -/
theorem datalog_classification (env : Env) (source : String)
    (timeout : Int) (learn : Bool) (text : String) (q : List Char)
    (qs : List (List Char))
    (ht : 0 < timeout)
    (hread : _read_text env.fs source = .ok text)
    (hq : queryFindall text.toList = q :: qs)
    (hdecl : q ∈ dclFindall text.toList) :
    (q ∈ ruleFindall text.toList →
      verify env source "datalog" timeout learn =
        .ok ⟨"unsafe", some (factFor q),
             if learn then [factFor q] else []⟩) ∧
    (q ∉ ruleFindall text.toList →
      verify env source "datalog" timeout learn =
        .ok ⟨"safe", none, []⟩) := by
  have h := verify_datalog_eval env source timeout learn text q qs ht
    hread hq hdecl
  constructor
  · intro hr
    rw [h, if_pos hr]
  · intro hr
    rw [h, if_neg hr]

/-- Witness for C2's amended theorem, at the two fixture inputs of the
specification. -/
theorem datalog_classification_witness :
    verify envPlain "(declare-rel P ()) (rule (P)) (query P)" "datalog"
        5 false =
      .ok ⟨"unsafe", some (factFor ['P']), []⟩ ∧
    verify envPlain "(declare-rel P ()) (query P)" "datalog" 5 false =
      .ok ⟨"safe", none, []⟩ :=
  ⟨(datalog_classification envPlain
      "(declare-rel P ()) (rule (P)) (query P)" 5 false
      "(declare-rel P ()) (rule (P)) (query P)" ['P'] [] (by decide) rfl
      (by decide) (by decide)).1 (by decide),
   (datalog_classification envPlain "(declare-rel P ()) (query P)" 5
      false "(declare-rel P ()) (query P)" ['P'] [] (by decide) rfl
      (by decide) (by decide)).2 (by decide)⟩

/-- A file system whose reads only ever fail with `OSError` (the
failure mode `open`/`read` exhibit in nominal operation). -/
def nominalFS (fs : FS) : Prop :=
  ∀ s e, fs.readFile s = .error e → e = .osError

/-- A solver whose `from_string` only ever fails with `Z3Exception`
(its documented failure mode). -/
def nominalSolver (sol : String → Int → SolverRun) : Prop :=
  ∀ t n e, (sol t n).parseExc = some e → e = .z3Error

theorem _read_text_error {fs : FS} {s : String} {e : PyExc}
    (hn : nominalFS fs) (h : _read_text fs s = .error e) :
    e = .osError := by
  unfold _read_text at h
  split at h
  · exact hn s e h
  · exact absurd h (by simp)

/-- C3: `verify` raises an invalid-argument error (`ValueError`) if the
timeout is not positive or the dialect is not exactly "smtlib2" or
"datalog", regardless of the source argument; and for all other
arguments, under the collaborators' nominal failure modes, it returns a
fully-formed result record rather than raising.  (`timeout` is embedded
as an integer, following the source's `timeout: int` annotation; the
code's test is `timeout <= 0`.) -/
theorem verify_raises_iff_bad_args (env : Env) (source dialect : String)
    (timeout : Int) (learn : Bool) :
    ((timeout ≤ 0 ∨ ¬ (dialect = "datalog" ∨ dialect = "smtlib2")) →
      verify env source dialect timeout learn = .error .valueError) ∧
    (0 < timeout → (dialect = "datalog" ∨ dialect = "smtlib2") →
      nominalFS env.fs → nominalSolver env.solver →
      ∃ r, verify env source dialect timeout learn = .ok r) := by
  constructor
  · intro h
    rcases h with h | h
    · simp [verify, h]
    · by_cases ht : timeout ≤ 0
      · simp [verify, ht]
      · simp [verify, ht, h]
  · intro ht hd hfs hsol
    have ht' : ¬ (timeout ≤ 0) := by omega
    cases hr : _read_text env.fs source with
    | error e =>
      have he := _read_text_error hfs hr
      subst he
      exact ⟨unknownResult, by simp [verify, ht', not_not_intro hd, hr]⟩
    | ok text =>
      by_cases hb : pyStrip text = ""
      · exact ⟨unknownResult,
          by simp [verify, ht', not_not_intro hd, hr, hb]⟩
      · by_cases hdl : dialect = "datalog"
        · subst hdl
          cases hds : _datalog_status text.toList with
          | none =>
            have hds' : _datalog_status text.data = none := hds
            exact ⟨unknownResult, by simp [verify, ht', hr, hb, hds']⟩
          | some r =>
            have hds' : _datalog_status text.data = some r := hds
            exact ⟨if learn then r else { r with learned := [] },
              by simp [verify, ht', hr, hb, hds']⟩
        · have hdl2 : dialect = "smtlib2" := by
            rcases hd with h | h
            · exact absurd h hdl
            · exact h
          subst hdl2
          cases hp : (env.solver text (timeout * 1000)).parseExc with
          | some e =>
            have he := hsol text (timeout * 1000) e hp
            subst he
            exact ⟨unknownResult, by simp [verify, ht', hr, hb, hp]⟩
          | none =>
            cases hc : (env.solver text (timeout * 1000)).checkRes with
            | unsat =>
              exact ⟨⟨"safe", none, []⟩,
                by simp [verify, ht', hr, hb, hp, hc]⟩
            | sat =>
              exact ⟨⟨"unsafe",
                some (env.solver text (timeout * 1000)).modelSexpr,
                if learn
                then [(env.solver text (timeout * 1000)).modelSexpr]
                else []⟩, by simp [verify, ht', hr, hb, hp, hc]⟩
            | unknown =>
              exact ⟨unknownResult,
                by simp [verify, ht', hr, hb, hp, hc]⟩

/-- Witness for C3: an unknown dialect raises `ValueError`; valid
arguments return a result record. -/
theorem verify_raises_iff_bad_args_witness :
    verify envPlain "x" "prolog" 5 false = .error .valueError ∧
    ∃ r, verify envPlain "x" "smtlib2" 5 false = .ok r :=
  ⟨(verify_raises_iff_bad_args envPlain "x" "prolog" 5 false).1
      (Or.inr (by decide)),
   (verify_raises_iff_bad_args envPlain "x" "smtlib2" 5 false).2
      (by decide) (Or.inr rfl)
      (fun s e h => by
        have : PyExc.osError = e := by injection h
        exact this.symm)
      (fun t n e h => by simp [envPlain, dummyRun] at h)⟩

/-- C4: a datalog-dialect call whose input is structurally malformed
(no `declare-rel` match, no `query` match, or a first queried predicate
that is not declared) returns status "unknown" and never raises. -/
theorem malformed_datalog_unknown (env : Env) (source : String)
    (timeout : Int) (learn : Bool) (text : String)
    (ht : 0 < timeout)
    (hread : _read_text env.fs source = .ok text)
    (hmal : datalogMalformed text.toList) :
    verify env source "datalog" timeout learn = .ok unknownResult := by
  have ht' : ¬ (timeout ≤ 0) := by omega
  simp only [verify, ht', if_false, hread]
  rw [if_neg (by simp)]
  by_cases hb : pyStrip text = ""
  · rw [if_pos hb]
  · rw [if_neg hb]
    simp only [if_true]
    rw [_datalog_status_none_of_malformed hmal]

/-- Witness for C4: a query for an undeclared predicate yields
"unknown". -/
theorem malformed_datalog_unknown_witness :
    verify envPlain "(declare-rel Q ()) (query P)" "datalog" 5 false =
      .ok unknownResult :=
  malformed_datalog_unknown envPlain "(declare-rel Q ()) (query P)" 5
    false "(declare-rel Q ()) (query P)" (by decide) rfl
    (Or.inr (Or.inr ⟨['P'], [], by decide, by decide⟩))

/-- C5: a call of either dialect whose resolved source text is empty or
whitespace-only returns `{status: "unknown", model: None, learned: []}`;
the environment's solver is quantified over, so the result does not
depend on it (the solver is not invoked, and neither is the Datalog
heuristic: the early return precedes both dispatches). -/
theorem blank_source_unknown (env : Env) (source dialect : String)
    (timeout : Int) (learn : Bool) (text : String)
    (ht : 0 < timeout)
    (hd : dialect = "datalog" ∨ dialect = "smtlib2")
    (hread : _read_text env.fs source = .ok text)
    (hsp : ∀ c ∈ text.toList, isSpaceChar c = true) :
    verify env source dialect timeout learn = .ok unknownResult := by
  have ht' : ¬ (timeout ≤ 0) := by omega
  have hb : pyStrip text = "" := (pyStrip_eq_empty_iff text).mpr hsp
  simp [verify, ht', not_not_intro hd, hread, hb]

/-- Witness for C5: the two fixtures `verify("", "smtlib2")` and
`verify("   ", "datalog")`. -/
theorem blank_source_unknown_witness :
    verify envPlain "" "smtlib2" 5 false = .ok unknownResult ∧
    verify envPlain "   " "datalog" 5 true = .ok unknownResult :=
  ⟨blank_source_unknown envPlain "" "smtlib2" 5 false "" (by decide)
      (Or.inr rfl) rfl (by decide),
   blank_source_unknown envPlain "   " "datalog" 5 true "   "
      (by decide) (Or.inl rfl) rfl (by decide)⟩

/-- C6 counterexample: an `OSError` raised while reading the source
file — which is not the solver's parse-failure exception type — is also
caught inside `verify` and downgraded to status "unknown", so it is not
true that only the solver's parse-failure exception type is
suppressed. -/
theorem oserror_also_swallowed_counterexample :
    verify envOsErr "input.smt2" "smtlib2" 5 false = .ok unknownResult ∧
    PyExc.osError ≠ PyExc.z3Error := by
  exact ⟨by decide, by decide⟩

/-- C6 as amended: within `verify`, exactly two exception classes are
caught and downgraded to status "unknown": `OSError` raised while
resolving the source, and the solver's parse-failure exception
(`Z3Exception`) raised while parsing; any other exception raised in
either place propagates to the caller (argument-misuse `ValueError`s
are raised before either). -/
theorem exception_downgrade_policy (env : Env) (source dialect : String)
    (timeout : Int) (learn : Bool)
    (ht : 0 < timeout)
    (hd : dialect = "datalog" ∨ dialect = "smtlib2") :
    (_read_text env.fs source = .error .osError →
      verify env source dialect timeout learn = .ok unknownResult) ∧
    (∀ e, _read_text env.fs source = .error e → e ≠ .osError →
      verify env source dialect timeout learn = .error e) ∧
    (∀ text, _read_text env.fs source = .ok text → pyStrip text ≠ "" →
      dialect = "smtlib2" →
      (env.solver text (timeout * 1000)).parseExc = some .z3Error →
      verify env source dialect timeout learn = .ok unknownResult) ∧
    (∀ text e, _read_text env.fs source = .ok text → pyStrip text ≠ "" →
      dialect = "smtlib2" →
      (env.solver text (timeout * 1000)).parseExc = some e →
      e ≠ .z3Error →
      verify env source dialect timeout learn = .error e) := by
  have ht' : ¬ (timeout ≤ 0) := by omega
  refine ⟨fun hr => ?_, fun e hr hne => ?_, fun text hr hnb hdl hp => ?_,
    fun text e hr hnb hdl hp hne => ?_⟩
  · simp [verify, ht', not_not_intro hd, hr]
  · simp [verify, ht', not_not_intro hd, hr, hne]
  · subst hdl
    simp [verify, ht', hr, hnb, hp]
  · subst hdl
    simp [verify, ht', hr, hnb, hp, hne]

/-- Witness for C6's amended theorem: a parse failure of the solver is
downgraded to "unknown". -/
theorem exception_downgrade_policy_witness :
    verify envZ3Err "(bad" "smtlib2" 5 false = .ok unknownResult :=
  (exception_downgrade_policy envZ3Err "(bad" "smtlib2" 5 false
      (by decide) (Or.inr rfl)).2.2.1 "(bad" rfl (by decide) rfl rfl

theorem _datalog_status_learned_shape {cs : List Char} {r : VResult}
    (h : _datalog_status cs = some r) :
    (r.model = none ∧ r.learned = []) ∨
    ∃ f, r.model = some f ∧ r.learned = [f] := by
  unfold _datalog_status at h
  split at h
  · exact absurd h (by simp)
  · split at h
    · exact absurd h (by simp)
    · split at h
      · injection h with h'
        subst h'
        right
        exact ⟨_, rfl, rfl⟩
      · injection h with h'
        subst h'
        left
        exact ⟨rfl, rfl⟩

/-- C7: with `learn=False`, the `learned` field of any returned result
is the empty sequence, whatever the status and whatever the heuristic
or solver produced. -/
theorem learn_false_learned_empty (env : Env) (source dialect : String)
    (timeout : Int) (r : VResult)
    (h : verify env source dialect timeout false = .ok r) :
    r.learned = [] := by
  unfold verify at h
  repeat' split at h
  all_goals try (injection h)
  all_goals subst r
  all_goals simp_all [unknownResult]

/-- Witness for C7: the datalog heuristic produces a learned entry, and
learn-gating empties it. -/
theorem learn_false_learned_empty_witness :
    verify envPlain "(declare-rel P ()) (rule (P)) (query P)" "datalog"
        5 false =
      .ok ⟨"unsafe", some "(define-fun P () Bool true)", []⟩ ∧
    (⟨"unsafe", some "(define-fun P () Bool true)", []⟩ :
        VResult).learned = [] :=
  ⟨by decide,
   learn_false_learned_empty envPlain
     "(declare-rel P ()) (rule (P)) (query P)" "datalog" 5
     ⟨"unsafe", some "(define-fun P () Bool true)", []⟩ (by decide)⟩

/-- C8: with `learn=True`, whenever the result status is "unsafe"
(either dialect), `learned` contains an entry equal to the returned
model. -/
theorem unsafe_model_in_learned (env : Env) (source dialect : String)
    (timeout : Int) (r : VResult) (m : String)
    (h : verify env source dialect timeout true = .ok r)
    (hs : r.status = "unsafe") (hm : r.model = some m) :
    m ∈ r.learned := by
  unfold verify at h
  repeat' split at h
  all_goals try (injection h)
  all_goals subst r
  all_goals simp_all [unknownResult]
  rcases _datalog_status_learned_shape (by assumption) with
    ⟨hn, _⟩ | ⟨f, hf, hl⟩
  · simp [hn] at hm
  · rw [hf] at hm
    injection hm with hm'
    subst hm'
    rw [hl]
    exact List.mem_singleton_self f

/-- Witness for C8: a `sat` solver outcome with `learn=True` returns
the model text inside `learned`. -/
theorem unsafe_model_in_learned_witness :
    "mdl" ∈ (⟨"unsafe", some "mdl", ["mdl"]⟩ : VResult).learned :=
  unsafe_model_in_learned (envSat "mdl") "(assert true)" "smtlib2" 5
    ⟨"unsafe", some "mdl", ["mdl"]⟩ "mdl" (by decide) rfl rfl

/-- C9: `verify` is deterministic and free of cross-call state: the
embedding is a pure function of its arguments and collaborators (the
module's only module-level state is the three compiled regex
constants), so two calls with identical arguments yield the same
result, and the second of two successive calls returns exactly what a
single call returns. -/
theorem verify_idempotent (env : Env) (source dialect : String)
    (timeout : Int) (learn : Bool) :
    (verifyTwice env source dialect timeout learn).1 =
      (verifyTwice env source dialect timeout learn).2 ∧
    (verifyTwice env source dialect timeout learn).2 =
      verify env source dialect timeout learn :=
  ⟨rfl, rfl⟩

theorem rule_head_impl (rest : List Char) :
    ∃ tl, ruleFindall ("(rule (=> ".toList ++ rest) =
      "=>".toList :: tl := by
  refine ⟨scanAux "rule".toList true (rest.length + 9) (' ' :: rest), ?_⟩
  have hlen : ("(rule (=> ".toList ++ rest).length = rest.length + 10 := by
    simp [List.length_append]
  unfold ruleFindall scanAll
  rw [hlen]
  rfl

/-- C10: the rule-head extractor captures only the first identifier
token after `(rule` and an optional `(`, so a conditional rule written
`(rule (=> body (P x)))` records `=>` as its head for any body;
consequently a well-formed datalog input whose first queried, declared
predicate is absent from the extracted rule heads is classified "safe";
and every name any of the three patterns captures consists only of
characters from the class `[A-Za-z0-9_!?\-+*/<>=]`, so a predicate name
containing a character outside that class is never matched. -/
theorem rule_regex_limitations :
    (∀ rest : List Char, ∃ tl,
      ruleFindall ("(rule (=> ".toList ++ rest) = "=>".toList :: tl) ∧
    (∀ (env : Env) (source : String) (timeout : Int) (learn : Bool)
      (text : String) (q : List Char) (qs : List (List Char)),
      0 < timeout → _read_text env.fs source = .ok text →
      queryFindall text.toList = q :: qs → q ∈ dclFindall text.toList →
      q ∉ ruleFindall text.toList →
      verify env source "datalog" timeout learn =
        .ok ⟨"safe", none, []⟩) ∧
    (∀ (cs n : List Char),
      (n ∈ dclFindall cs ∨ n ∈ ruleFindall cs ∨ n ∈ queryFindall cs) →
      n.all isIdentChar = true) := by
  refine ⟨rule_head_impl, ?_, ?_⟩
  · intro env source timeout learn text q qs ht hread hq hdecl hnr
    have h := verify_datalog_eval env source timeout learn text q qs ht
      hread hq hdecl
    rw [h, if_neg hnr]
  · intro cs n h
    rcases h with h | h | h <;>
      exact all_ident_of_mem_scanAux _ _ _ _ n h

/-- Witness for C10: a concrete implication-shaped rule records `=>`,
the fixture with only such a rule for `P` is classified "safe", and the
captured name `P` lies in the identifier class. -/
theorem rule_regex_limitations_witness :
    (∃ tl, ruleFindall ("(rule (=> ".toList ++ "(Q x) (P x)))".toList) =
      "=>".toList :: tl) ∧
    verify envPlain "(declare-rel P ()) (rule (=> (Q) (P))) (query P)"
        "datalog" 5 false = .ok ⟨"safe", none, []⟩ ∧
    (['P'] : List Char).all isIdentChar = true :=
  ⟨rule_regex_limitations.1 "(Q x) (P x)))".toList,
   rule_regex_limitations.2.1 envPlain
     "(declare-rel P ()) (rule (=> (Q) (P))) (query P)" 5 false
     "(declare-rel P ()) (rule (=> (Q) (P))) (query P)" ['P'] []
     (by decide) rfl (by decide) (by decide) (by decide),
   rule_regex_limitations.2.2 "(query P)".toList ['P']
     (Or.inr (Or.inr (by decide)))⟩

end Chc
